import Mathlib

/-!
Verification development for the airbnb-alerts repository.

The definitions below are a shallow embedding of the request-construction,
pagination, signature-resolution, post-filtering and result-normalization
code in `src/python/airbnb_search.py` and `src/python/search_listings.py`.
Python values are modelled by the inductive `PyVal`; Python exceptions are
modelled with `Except String`; the network is modelled by passing the
responses (or scripted pages / asset-scan outcomes) in as data.

Modelling conventions, stated once:
  * `int(s)` on a string is modelled by `pyIntOfString` (optional
    surrounding whitespace, optional sign, decimal digits; Python's
    digit-grouping underscores are not modelled).
  * `int(float(s))` is modelled by `pyIntOfFloatString`, which parses an
    optionally signed decimal numeral with an optional fractional part and
    truncates toward zero, exactly as CPython does on such inputs
    (exponent forms, inf/nan and binary-float rounding of astronomically
    long numerals are not modelled).
  * `str(x)` for container values uses a Python-style repr; no claim below
    depends on the repr of a container.
-/

/-! ## Python value model -/

/-- Model of a Python value as it appears in the JSON-shaped records this
program manipulates: `None`, booleans, integers, strings, lists and
string-keyed dicts. -/
inductive PyVal where
  | none
  | bool (b : Bool)
  | int (n : Int)
  | str (s : String)
  | list (xs : List PyVal)
  | dict (kvs : List (String × PyVal))

/-- A Python dict record (a listing, a params object, ...). -/
abbrev Dict := List (String × PyVal)

/-- Python truthiness (`bool(x)`). -/
def pyTruthy : PyVal → Bool
  | .none => false
  | .bool b => b
  | .int n => n != 0
  | .str s => !(s = "")
  | .list xs => !xs.isEmpty
  | .dict kvs => !kvs.isEmpty

/-- `d.get(k)`: first value stored under `k`, `None` when absent.  A key
stored with value `None` is indistinguishable from an absent key, which is
exactly how every call site in the source treats the result. -/
def getKey (kvs : Dict) (k : String) : PyVal :=
  match kvs.find? (fun p => p.1 == k) with
  | some p => p.2
  | Option.none => .none

/-- `v.get(k)` on an arbitrary value: only dicts have `.get`; every other
value raises `AttributeError`. -/
def pyGet (v : PyVal) (k : String) : Except String PyVal :=
  match v with
  | .dict kvs => .ok (getKey kvs k)
  | _ => .error "AttributeError: object has no attribute get"

/-- Python `a or b` (returns an operand, not a bool). -/
def pyOr (a b : PyVal) : PyVal := if pyTruthy a then a else b

/-- Python `a and b` (returns an operand, not a bool). -/
def pyAnd (a b : PyVal) : PyVal := if pyTruthy a then b else a

/-- `iter(v)`: lists yield their elements, strings their characters,
dicts their keys; every other value raises `TypeError`. -/
def pyIter (v : PyVal) : Except String (List PyVal) :=
  match v with
  | .list xs => .ok xs
  | .str s => .ok (s.toList.map (fun c => .str (String.mk [c])))
  | .dict kvs => .ok (kvs.map (fun p => .str p.1))
  | _ => .error "TypeError: object is not iterable"

mutual

/-- Python repr of a value (used by `str` inside containers). -/
def pyRepr : PyVal → String
  | .none => "None"
  | .bool b => cond b "True" "False"
  | .int n => toString n
  | .str s => "'" ++ s ++ "'"
  | .list xs => "[" ++ pyReprSeq xs ++ "]"
  | .dict kvs => "\x7b" ++ pyReprKvs kvs ++ "\x7d"

/-- Comma-separated reprs of a list of values. -/
def pyReprSeq : List PyVal → String
  | [] => ""
  | [x] => pyRepr x
  | x :: y :: rest => pyRepr x ++ ", " ++ pyReprSeq (y :: rest)

/-- Comma-separated reprs of dict items. -/
def pyReprKvs : List (String × PyVal) → String
  | [] => ""
  | [(k, v)] => "'" ++ k ++ "': " ++ pyRepr v
  | (k, v) :: p :: rest => "'" ++ k ++ "': " ++ pyRepr v ++ ", " ++ pyReprKvs (p :: rest)

end

/-- Python `str(x)`. -/
def pyStr : PyVal → String
  | .str s => s
  | v => pyRepr v

/-- `s.lower()` (character-wise; the strings this program lowercases are
ASCII). -/
def toLowerStr (s : String) : String := String.mk (s.toList.map Char.toLower)

/-- `s.upper()`. -/
def toUpperStr (s : String) : String := String.mk (s.toList.map Char.toUpper)

/-! ## Numeric string parsing (`int()` / `int(float())`) -/

/-- Strip leading and trailing whitespace from a character list. -/
def stripWs (cs : List Char) : List Char :=
  ((cs.dropWhile Char.isWhitespace).reverse.dropWhile Char.isWhitespace).reverse

/-- Value of a run of decimal digits. -/
def digitsVal (ds : List Char) : Nat :=
  ds.foldl (fun a c => a * 10 + (c.toNat - 48)) 0

/-- Split an optional leading sign off a character list. -/
def splitSign : List Char → Bool × List Char
  | '-' :: rest => (true, rest)
  | '+' :: rest => (false, rest)
  | cs => (false, cs)

/-- `int(s)` on a string: optional surrounding whitespace, optional sign,
one or more decimal digits; anything else raises (modelled as `none`). -/
def pyIntOfString (s : String) : Option Int :=
  let (neg, ds) := splitSign (stripWs s.toList)
  if !ds.isEmpty && ds.all Char.isDigit then
    some (if neg then -(digitsVal ds : Int) else (digitsVal ds : Int))
  else
    Option.none

/-- Components of a parsed decimal numeral: sign, integer part, and
whether the fractional part is nonzero. -/
structure DecParse where
  neg : Bool
  ipart : Nat
  fracNonzero : Bool

/-- Parse an optionally signed decimal numeral with optional fractional
part (`float(s)` on the inputs this program feeds it). -/
def parseDec (s : String) : Option DecParse :=
  let (neg, cs) := splitSign (stripWs s.toList)
  let ip := cs.takeWhile Char.isDigit
  let rest := cs.dropWhile Char.isDigit
  match rest with
  | [] => if ip.isEmpty then Option.none else some ⟨neg, digitsVal ip, false⟩
  | '.' :: fr =>
    if fr.all Char.isDigit && (!ip.isEmpty || !fr.isEmpty) then
      some ⟨neg, digitsVal ip, fr.any (fun c => c != '0')⟩
    else Option.none
  | _ => Option.none

/-- `int(float(s))`: CPython truncates toward zero, so the result is the
signed integer part of the numeral. -/
def pyIntOfFloatString (s : String) : Option Int :=
  (parseDec s).map fun d => if d.neg then -(d.ipart : Int) else (d.ipart : Int)

/-- Follows the spec's words, for comparison with the source behaviour:
"Zoom must be floored to an integer before emission" — the mathematical
floor of the decimal value of the zoom string. -/
def zoomLevelFloorSpec (s : String) : Option Int :=
  (parseDec s).map fun d =>
    if d.neg && d.fracNonzero then -((d.ipart : Int) + 1)
    else if d.neg then -(d.ipart : Int)
    else (d.ipart : Int)

/-! ## Dates (`datetime.strptime(s, "%Y-%m-%d")` and day differences) -/

/-- Gregorian leap year. -/
def isLeapYear (y : Nat) : Bool :=
  (y % 4 == 0 && y % 100 != 0) || y % 400 == 0

/-- Days in a month of the proleptic Gregorian calendar. -/
def daysInMonth (y m : Nat) : Nat :=
  if m == 2 then (if isLeapYear y then 29 else 28)
  else if m == 4 || m == 6 || m == 9 || m == 11 then 30
  else 31

/-- Days in the months strictly before month `m` of year `y`. -/
def daysBeforeMonth (y m : Nat) : Nat :=
  (List.range (m - 1)).foldl (fun a i => a + daysInMonth y (i + 1)) 0

/-- `date(y, m, d).toordinal()`: day number in the proleptic Gregorian
calendar with 0001-01-01 = 1 (as in CPython's datetime). -/
def dateOrdinal (y m d : Nat) : Nat :=
  365 * (y - 1) + (y - 1) / 4 - (y - 1) / 100 + (y - 1) / 400 + daysBeforeMonth y m + d

/-- Split a character list on a separator character. -/
def splitOnCharAux (c : Char) : List Char → List Char → List (List Char)
  | [], acc => [acc.reverse]
  | x :: rest, acc =>
    if x == c then acc.reverse :: splitOnCharAux c rest []
    else splitOnCharAux c rest (x :: acc)

/-- `datetime.strptime(s, "%Y-%m-%d")`, returning the ordinal day; `none`
models the `ValueError` raised on a malformed date string. -/
def parseDateOrd (s : String) : Option Nat :=
  match splitOnCharAux '-' s.toList [] with
  | [ys, ms, ds] =>
    if !ys.isEmpty && ys.length ≤ 4 && ys.all Char.isDigit
        && !ms.isEmpty && ms.length ≤ 2 && ms.all Char.isDigit
        && !ds.isEmpty && ds.length ≤ 2 && ds.all Char.isDigit then
      let y := digitsVal ys
      let m := digitsVal ms
      let d := digitsVal ds
      if 1 ≤ y && 1 ≤ m && m ≤ 12 && 1 ≤ d && d ≤ daysInMonth y m then
        some (dateOrdinal y m d)
      else Option.none
    else Option.none
  | _ => Option.none

/-! ## `build_raw_params` (src/python/airbnb_search.py, lines 51-176)

The parsed query string (`parse_qs` output) is a finite map from keys to
nonempty lists of string values; we model it as an association list. -/

/-- One wire-level filter entry: `{"filterName": ..., "filterValues": [...]}`. -/
structure FilterEntry where
  filterName : String
  filterValues : List String
deriving DecidableEq, Repr

/-- A parsed query string: key to list-of-values association list. -/
abbrev Qs := List (String × List String)

/-- `qs.get(key, [])`. -/
def qsGet (qs : Qs) (k : String) : List String :=
  match qs.find? (fun p => p.1 == k) with
  | some p => p.2
  | Option.none => []

/-- The local helper `first(key, default)`: first value under the key, or
the default when the key is absent or has no values. -/
def qsFirst (qs : Qs) (k : String) (d : Option String) : Option String :=
  match qsGet qs k with
  | v :: _ => some v
  | [] => d

/-- `ne_lat = first("ne_lat", first("ne_lat"))`. -/
def neLatVal (qs : Qs) : Option String := qsFirst qs "ne_lat" (qsFirst qs "ne_lat" Option.none)

/-- `ne_lng = first("ne_lng", first("ne_long"))`. -/
def neLngVal (qs : Qs) : Option String := qsFirst qs "ne_lng" (qsFirst qs "ne_long" Option.none)

/-- `sw_lat = first("sw_lat")`. -/
def swLatVal (qs : Qs) : Option String := qsFirst qs "sw_lat" Option.none

/-- `sw_lng = first("sw_lng", first("sw_long"))`. -/
def swLngVal (qs : Qs) : Option String := qsFirst qs "sw_lng" (qsFirst qs "sw_long" Option.none)

/-- `zoom = first("zoom_level", first("zoom", "12"))` (always a string). -/
def zoomVal (qs : Qs) : String :=
  (qsFirst qs "zoom_level" (qsFirst qs "zoom" (some "12"))).getD "12"

/-- `place_id = first("place_id", "")`. -/
def placeIdVal (qs : Qs) : String := (qsFirst qs "place_id" (some "")).getD ""

/-- `query = first("query", "")`. -/
def queryVal (qs : Qs) : String := (qsFirst qs "query" (some "")).getD ""

/-- `check_in = first("checkin")`. -/
def checkInVal (qs : Qs) : Option String := qsFirst qs "checkin" Option.none

/-- `check_out = first("checkout")`. -/
def checkOutVal (qs : Qs) : Option String := qsFirst qs "checkout" Option.none

/-- `price_min = first("price_min")`. -/
def priceMinVal (qs : Qs) : Option String := qsFirst qs "price_min" Option.none

/-- `price_max = first("price_max")`. -/
def priceMaxVal (qs : Qs) : Option String := qsFirst qs "price_max" Option.none

/-- `min_beds = first("min_beds")`. -/
def minBedsVal (qs : Qs) : Option String := qsFirst qs "min_beds" Option.none

/-- `min_bedrooms = first("min_bedrooms")`. -/
def minBedroomsVal (qs : Qs) : Option String := qsFirst qs "min_bedrooms" Option.none

/-- `min_bathrooms = first("min_bathrooms")`. -/
def minBathroomsVal (qs : Qs) : Option String := qsFirst qs "min_bathrooms" Option.none

/-- `adults = first("adults")`. -/
def adultsVal (qs : Qs) : Option String := qsFirst qs "adults" Option.none

/-- `children = first("children")`. -/
def childrenVal (qs : Qs) : Option String := qsFirst qs "children" Option.none

/-- `infants = first("infants")`. -/
def infantsVal (qs : Qs) : Option String := qsFirst qs "infants" Option.none

/-- `ib = first("ib", "false")`. -/
def ibVal (qs : Qs) : String := (qsFirst qs "ib" (some "false")).getD "false"

/-- `guest_favorite = first("guest_favorite", "false")`. -/
def guestFavoriteVal (qs : Qs) : String := (qsFirst qs "guest_favorite" (some "false")).getD "false"

/-- `free_cancellation = first("flexible_cancellation", "false")`. -/
def freeCancellationVal (qs : Qs) : String :=
  (qsFirst qs "flexible_cancellation" (some "false")).getD "false"

/-- Truthiness of an optional query value (`None` and `""` are falsy). -/
def truthyS : Option String → Bool
  | some s => !(s = "")
  | Option.none => false

/-- `has_bbox = ne_lat and ne_lng and sw_lat and sw_lng`. -/
def hasBbox (qs : Qs) : Bool :=
  truthyS (neLatVal qs) && truthyS (neLngVal qs) && truthyS (swLatVal qs) && truthyS (swLngVal qs)

/-- The fixed base parameters (lines 88-97). -/
def baseParams : List FilterEntry :=
  [⟨"cdnCacheSafe", ["false"]⟩,
   ⟨"channel", ["EXPLORE"]⟩,
   ⟨"datePickerType", ["calendar"]⟩,
   ⟨"itemsPerGrid", ["50"]⟩,
   ⟨"screenSize", ["large"]⟩,
   ⟨"refinementPaths", ["/homes"]⟩,
   ⟨"tabId", ["home_tab"]⟩,
   ⟨"version", ["1.8.3"]⟩]

/-- Bounding-box section (lines 99-115): all six map filters when all four
coordinates are truthy, nothing otherwise; `int(float(zoom))` raises on a
malformed zoom string. -/
def bboxParams (qs : Qs) : Except String (List FilterEntry) :=
  if hasBbox qs then
    match pyIntOfFloatString (zoomVal qs) with
    | some z =>
      .ok [⟨"searchByMap", ["true"]⟩,
           ⟨"neLat", [(neLatVal qs).getD ""]⟩,
           ⟨"neLng", [(neLngVal qs).getD ""]⟩,
           ⟨"swLat", [(swLatVal qs).getD ""]⟩,
           ⟨"swLng", [(swLngVal qs).getD ""]⟩,
           ⟨"zoomLevel", [toString z]⟩]
    | Option.none => .error ("could not convert string to float: " ++ zoomVal qs)
  else .ok []

/-- Location section (lines 117-121). -/
def locationParams (qs : Qs) : List FilterEntry :=
  (if !(placeIdVal qs = "") then [⟨"placeId", [placeIdVal qs]⟩] else [])
    ++ (if !(queryVal qs = "") then [⟨"query", [queryVal qs]⟩] else [])

/-- Date section (lines 123-131): emitted only when both dates are truthy;
`strptime` raises on a malformed date (checkout is parsed first, matching
the evaluation order of the subtraction). -/
def dateParams (ci co : Option String) : Except String (List FilterEntry) :=
  if truthyS ci && truthyS co then
    match parseDateOrd (co.getD "") with
    | Option.none => .error ("time data does not match format: " ++ co.getD "")
    | some oco =>
      match parseDateOrd (ci.getD "") with
      | Option.none => .error ("time data does not match format: " ++ ci.getD "")
      | some oci =>
        .ok [⟨"checkin", [ci.getD ""]⟩,
             ⟨"checkout", [co.getD ""]⟩,
             ⟨"priceFilterNumNights", [toString ((oco : Int) - (oci : Int))]⟩]
  else .ok []

/-- The `if v and int(v) > 0: append` pattern used for prices, guest counts
and property minimums (lines 133-150): absent or empty values are skipped,
a present non-integer value raises, a parsed value is emitted only when
positive. -/
def posIntFilter (nm : String) (v : Option String) : Except String (List FilterEntry) :=
  match v with
  | Option.none => .ok []
  | some s =>
    if s = "" then .ok []
    else
      match pyIntOfString s with
      | Option.none => .error ("invalid literal for int with base 10: " ++ s)
      | some n => if 0 < n then .ok [⟨nm, [s]⟩] else .ok []

/-- Room-type section (lines 152-154): one entry per selected value. -/
def roomTypeParams (qs : Qs) : List FilterEntry :=
  (qsGet qs "room_types[]").map (fun rt => ⟨"room_types", [rt]⟩)

/-- Amenity section (lines 156-158): one multi-valued entry, only when
nonempty. -/
def amenityParams (qs : Qs) : List FilterEntry :=
  match qsGet qs "amenities[]" with
  | [] => []
  | a => [⟨"amenities", a⟩]

/-- Boolean-flag sections (lines 160-170): emitted only when the value
lowercases to "true". -/
def boolFlagParams (qs : Qs) : List FilterEntry :=
  (if toLowerStr (ibVal qs) = "true" then [⟨"ib", ["true"]⟩] else [])
    ++ (if toLowerStr (guestFavoriteVal qs) = "true" then [⟨"guest_favorite", ["true"]⟩] else [])
    ++ (if toLowerStr (freeCancellationVal qs) = "true" then [⟨"flexible_cancellation", ["true"]⟩] else [])

/-- Filter-order section (lines 172-174). -/
def filterOrderParams (qs : Qs) : List FilterEntry :=
  (qsGet qs "selected_filter_order[]").map (fun fo => ⟨"selected_filter_order", [fo]⟩)

/-- `build_raw_params(qs)` (lines 51-176).  The sections are sequenced in
the order the Python statements execute, so the first section that raises
determines the exception, exactly as in the source. -/
def buildRawParams (qs : Qs) : Except String (List FilterEntry) :=
  (bboxParams qs).bind fun bbox =>
  (dateParams (checkInVal qs) (checkOutVal qs)).bind fun dates =>
  (posIntFilter "price_min" (priceMinVal qs)).bind fun pmin =>
  (posIntFilter "price_max" (priceMaxVal qs)).bind fun pmax =>
  (posIntFilter "adults" (adultsVal qs)).bind fun ad =>
  (posIntFilter "children" (childrenVal qs)).bind fun ch =>
  (posIntFilter "infants" (infantsVal qs)).bind fun inff =>
  (posIntFilter "min_beds" (minBedsVal qs)).bind fun mb =>
  (posIntFilter "min_bedrooms" (minBedroomsVal qs)).bind fun mbr =>
  (posIntFilter "min_bathrooms" (minBathroomsVal qs)).bind fun mba =>
  .ok (baseParams ++ bbox ++ locationParams qs ++ dates
        ++ pmin ++ pmax ++ ad ++ ch ++ inff ++ mb ++ mbr ++ mba
        ++ roomTypeParams qs ++ amenityParams qs ++ boolFlagParams qs ++ filterOrderParams qs)

/-! ## Page fetch and pagination (src/python/airbnb_search.py, lines 179-323) -/

/-- An HTTP response as `search_page` sees it: status code, `resp.text`,
and `resp.json()` (the parsed body). -/
structure HttpResp where
  status : Nat
  text : String
  jsonBody : PyVal

/-- `search_page` (lines 179-222) as a function of the response the POST
produced: a non-200 status raises; otherwise the parsed body is returned
unchanged — nothing in the function inspects the body. -/
def search_page (resp : HttpResp) : Except String PyVal :=
  if resp.status ≠ 200 then
    .error ("HTTP " ++ toString resp.status ++ ": " ++ resp.text.take 300)
  else .ok resp.jsonBody

/-- Does a response body carry a request-level GraphQL failure, i.e. a
non-empty top-level `errors` array?  (This predicate follows the spec's
words; no function in the source computes it.) -/
def hasErrorsArray (body : PyVal) : Bool :=
  match body with
  | .dict kvs =>
    match getKey kvs "errors" with
    | .list (_ :: _) => true
    | _ => false
  | _ => false

/-- One page of a scripted upstream: the listings `standardize.from_search`
yields for it and the `nextPageCursor` found under the pagination path
(the empty string models both a missing and an empty cursor, which the
loop treats identically via `not next_cursor`). -/
structure Page (α : Type) where
  listings : List α
  nextPageCursor : String

/-- The pagination loop of `search_from_url` (lines 305-323) run against a
scripted sequence of pages: each iteration consumes the next page, appends
its listings, and stops when the page had no listings or no next cursor.
The second component counts the fetches performed.  (The cursor value
itself is opaque to the client — it is sent back verbatim — so which page
the upstream serves next is a property of the script, not of the cursor.)
An exhausted script (the upstream keeps promising more pages than were
scripted) yields the `[]` base case, which no theorem below relies on. -/
def paginate {α : Type} : List (Page α) → List α × Nat
  | [] => ([], 0)
  | p :: rest =>
    if p.listings.isEmpty || p.nextPageCursor = "" then (p.listings, 1)
    else
      let r := paginate rest
      (p.listings ++ r.1, r.2 + 1)

/-! ## Operation-signature resolver (src/python/airbnb_search.py, lines 24, 225-286) -/

/-- The hardcoded fallback signature (line 24). -/
def DEFAULT_HASH : String :=
  "e75ccaa7c9468e19d7613208b37d05f9b680529490ca9bc9d3361202ca0a4e43"

/-- Outcome of scanning one JS asset in `fetch_live_hash`'s loop: the GET
raised (inner `except: continue`), returned a non-200 status (`continue`),
matched nothing, or matched and captured the 64-hex token. -/
inductive AssetOutcome where
  | fetchError
  | non200
  | noMatch
  | found (h : String)

/-- The network environment `fetch_live_hash` runs against: `none` when
fetching the search page (or its `raise_for_status`) fails — the outer
`except` path — otherwise the outcomes of scanning each collected JS
asset URL, in order. -/
structure ScanEnv where
  page : Option (List AssetOutcome)

/-- The asset-scanning loop (lines 257-269): first captured token wins,
every other outcome moves on to the next asset. -/
def scanAssets : List AssetOutcome → String
  | [] => DEFAULT_HASH
  | .found h :: _ => h
  | .fetchError :: rest => scanAssets rest
  | .non200 :: rest => scanAssets rest
  | .noMatch :: rest => scanAssets rest

/-- `fetch_live_hash` (lines 225-276): any failure of the page fetch falls
back to `DEFAULT_HASH`; otherwise the assets are scanned in order and the
default is returned when none matches. -/
def fetch_live_hash (env : ScanEnv) : String :=
  match env.page with
  | Option.none => DEFAULT_HASH
  | some outs => scanAssets outs

/-- Does the environment contain a captured token at all? -/
def hasFoundAsset : List AssetOutcome → Bool
  | [] => false
  | .found _ :: _ => true
  | _ :: rest => hasFoundAsset rest

/-- `get_op_hash` (lines 279-286) with the module-global `_cached_hash`
made explicit: given the current cache, return the hash to use and the new
cache value. -/
def get_op_hash (env : ScanEnv) (cached : Option String) : String × Option String :=
  match cached with
  | some h => (h, some h)
  | Option.none =>
    let h := fetch_live_hash env
    (h, some h)

/-- A process lifetime: a sequence of `get_op_hash` calls, each possibly
seeing a different network environment, threaded through the module-global
cache. -/
def runOpHashCalls : List ScanEnv → Option String → List String × Option String
  | [], c => ([], c)
  | e :: rest, c =>
    let r := get_op_hash e c
    let rs := runOpHashCalls rest r.2
    (r.1 :: rs.1, rs.2)

/-! ## Regex primitives used by search_listings.py

`re.search` with the tiny patterns the source uses is modelled directly:
`(\d+)` finds the first maximal digit run; `(\d+)\s*bed` (IGNORECASE)
matches at the leftmost position where a digit run, optional whitespace
and the literal `bed` follow each other (backtracking inside the digit run
cannot help, since a digit is neither whitespace nor `b`); the
word-boundary alternation of `detect_is_home` checks each keyword at each
position with non-word characters (ASCII `\w`) on both sides. -/

/-- `int(x)`: ints and bools convert, strings parse, everything else
raises `TypeError` (floats do not occur in the modelled records). -/
def pyToInt : PyVal → Option Int
  | .bool b => some (cond b 1 0)
  | .int n => some n
  | .str s => pyIntOfString s
  | _ => Option.none

/-- Is `ns` a prefix of `cs`? -/
def charsHasPrefix : List Char → List Char → Bool
  | _, [] => true
  | [], _ :: _ => false
  | c :: cs, n :: ns => c == n && charsHasPrefix cs ns

/-- Does `cs` contain `ns` as a contiguous substring? -/
def charsContainsSub : List Char → List Char → Bool
  | [], ns => ns.isEmpty
  | c :: cs, ns => charsHasPrefix (c :: cs) ns || charsContainsSub cs ns

/-- Python `needle in hay` on strings. -/
def strContainsSub (hay needle : String) : Bool :=
  charsContainsSub hay.toList needle.toList

/-- `re.search(r'(\d+)', s)`: value of the first maximal digit run. -/
def firstNatRun : List Char → Option Nat
  | [] => Option.none
  | c :: rest =>
    if c.isDigit then some (digitsVal (c :: rest.takeWhile Char.isDigit))
    else firstNatRun rest

/-- A match of `(\d+)\s*bed` (IGNORECASE) anchored at the head. -/
def numBedMatchAt (cs : List Char) : Option Nat :=
  match cs with
  | c :: _ =>
    if c.isDigit then
      let ds := cs.takeWhile Char.isDigit
      let afterWs := (cs.dropWhile Char.isDigit).dropWhile Char.isWhitespace
      if charsHasPrefix (afterWs.map Char.toLower) ['b', 'e', 'd'] then some (digitsVal ds)
      else Option.none
    else Option.none
  | [] => Option.none

/-- `re.search(r'(\d+)\s*bed', s, re.I)`: leftmost match wins. -/
def numBedSearch : List Char → Option Nat
  | [] => Option.none
  | c :: rest =>
    match numBedMatchAt (c :: rest) with
    | some n => some n
    | Option.none => numBedSearch rest

/-- ASCII `\w`. -/
def isWordChar (c : Char) : Bool := c.isAlphanum || c == '_'

/-- The keywords of `r'\b(entire|home|house|apt|apartment|studio)\b'`. -/
def homeWords : List (List Char) :=
  [['e','n','t','i','r','e'], ['h','o','m','e'], ['h','o','u','s','e'],
   ['a','p','t'], ['a','p','a','r','t','m','e','n','t'], ['s','t','u','d','i','o']]

/-- Does keyword `w` match at the head of `cs` with word boundaries on
both sides (`prev` is the character before `cs`, if any)? -/
def wordAtBoundary (prev : Option Char) (cs : List Char) (w : List Char) : Bool :=
  (match prev with | some p => !isWordChar p | Option.none => true)
    && charsHasPrefix (cs.map Char.toLower) w
    && (match cs.drop w.length with | [] => true | c :: _ => !isWordChar c)

/-- Scan every position for a word-boundary keyword match. -/
def scanHomeWords : Option Char → List Char → Bool
  | _, [] => false
  | prev, c :: rest =>
    homeWords.any (wordAtBoundary prev (c :: rest)) || scanHomeWords (some c) rest

/-- `re.search(r'\b(entire|home|house|apt|apartment|studio)\b', s, re.I)`
as a boolean. -/
def hasHomeWord (s : String) : Bool := scanHomeWords Option.none s.toList

/-! ## min_beds post-filter (src/python/search_listings.py, lines 168-187) -/

/-- `pick(*keys)` from the normalization loop, also the shape of the field
loop in `meets_min_beds`: first present (non-`None`) value wins. -/
def pickKeys (listing : Dict) : List String → PyVal
  | [] => .none
  | k :: rest =>
    match getKey listing k with
    | .none => pickKeys listing rest
    | v => v

/-- One iteration of the `('beds', 'min_beds', 'bedCount')` loop body:
`try: return int(val) >= int(want_min_beds) except: pass` — the
comparison is returned only when both coercions succeed. -/
def tryFieldCompare (want val : PyVal) : Option Bool :=
  match pyToInt val with
  | some a =>
    match pyToInt want with
    | some w => some (decide (a ≥ w))
    | Option.none => Option.none
  | Option.none => Option.none

/-- The field loop of `meets_min_beds` (lines 172-176). -/
def fieldsBedCheck (want : PyVal) (item : Dict) : List String → Option Bool
  | [] => Option.none
  | f :: rest =>
    match getKey item f with
    | .none => fieldsBedCheck want item rest
    | v =>
      match tryFieldCompare want v with
      | some b => some b
      | Option.none => fieldsBedCheck want item rest

/-- One structured-content entry of the `meets_min_beds` scan (lines
180-183): stringify the body, search `(\d+)\s*bed`, and on a match return
the comparison — where `int(want_min_beds)` may raise, uncaught here. -/
def entryBedCheck (want entry : PyVal) : Except String (Option Bool) :=
  let bodyVal := match entry with
    | .dict kvs => getKey kvs "body"
    | e => .str (pyStr e)
  match numBedSearch (pyStr (pyOr bodyVal (.str ""))).toList with
  | some n =>
    match pyToInt want with
    | some w => .ok (some (decide ((n : Int) ≥ w)))
    | Option.none => .error "TypeError: int argument must be a number"
  | Option.none => .ok Option.none

/-- The inner entry loop over one display-line array. -/
def entriesBedCheck (want : PyVal) : List PyVal → Except String (Option Bool)
  | [] => .ok Option.none
  | e :: rest =>
    (entryBedCheck want e).bind fun r =>
      match r with
      | some b => .ok (some b)
      | Option.none => entriesBedCheck want rest

/-- `meets_min_beds(item)` (lines 171-184): try the explicit fields, then
the `mapPrimaryLine` and `primaryLine` display arrays, and keep the
listing (`return True`) when nothing yields bed information. -/
def meets_min_beds (want : PyVal) (item : Dict) : Except String Bool :=
  match fieldsBedCheck want item ["beds", "min_beds", "bedCount"] with
  | some b => .ok b
  | Option.none =>
    let sc := pyOr (getKey item "structuredContent") (.dict [])
    (pyGet sc "mapPrimaryLine").bind fun v1 =>
    (pyIter (pyOr v1 (.list []))).bind fun es1 =>
    (entriesBedCheck want es1).bind fun r1 =>
      match r1 with
      | some b => .ok b
      | Option.none =>
        (pyGet sc "primaryLine").bind fun v2 =>
        (pyIter (pyOr v2 (.list []))).bind fun es2 =>
        (entriesBedCheck want es2).bind fun r2 =>
          match r2 with
          | some b => .ok b
          | Option.none => .ok true

/-- A Python list comprehension with a possibly-raising predicate. -/
def exceptFilter {α : Type} (p : α → Except String Bool) : List α → Except String (List α)
  | [] => .ok []
  | x :: rest =>
    (p x).bind fun b =>
    (exceptFilter p rest).bind fun r =>
    .ok (if b then x :: r else r)

/-- The min_beds post-filter stage (lines 168-187): `want_min_beds =
params.get('min_beds') or 0`; the filter runs only when that value is
truthy and the URL-forwarding path was NOT used (`using_url` is the
`serverEnforced` flag of the spec). -/
def minBedsStage (params : Dict) (usingUrl : Bool) (results : List Dict) :
    Except String (List Dict) :=
  let want := pyOr (getKey params "min_beds") (.int 0)
  if pyTruthy want && !usingUrl then exceptFilter (meets_min_beds want) results
  else .ok results

/-! ## Result normalizer (src/python/search_listings.py, lines 192-295) -/

/-- The stable output record built by the normalization loop — one field
per key of the dict literal at lines 269-295. -/
structure NormalizedListing where
  id : Option String
  url : PyVal
  name : PyVal
  price : PyVal
  currency : String
  rating : PyVal
  reviewsCount : PyVal
  roomType : PyVal
  guests : PyVal
  address : PyVal
  lat : PyVal
  lng : PyVal
  hostId : PyVal
  hostName : PyVal
  hostIsSuperhost : PyVal
  photos : PyVal
  badges : PyVal
  isGuestFavorite : Bool
  instantBook : Bool
  isHome : Bool
  bedrooms : Option Nat
  beds : Option Nat

/-- One entry of the BEDINFO scan (lines 230-236): a dict entry whose
`type` is `'BEDINFO'` contributes the first integer of its body (a body
with no digits contributes nothing and the loop continues); `re.search`
raises on a truthy non-string body. -/
def bedEntryNat (entry : PyVal) : Except String (Option Nat) :=
  match entry with
  | .dict kvs =>
    if (match getKey kvs "type" with | .str s => s == "BEDINFO" | _ => false) then
      match pyOr (getKey kvs "body") (.str "") with
      | .str s => .ok (firstNatRun s.toList)
      | _ => .error "TypeError: expected string or bytes-like object"
    else .ok Option.none
  | _ => .ok Option.none

/-- The entry loop of the BEDINFO scan. -/
def bedEntriesScan : List PyVal → Except String (Option Nat)
  | [] => .ok Option.none
  | e :: rest =>
    (bedEntryNat e).bind fun r =>
      match r with
      | some n => .ok (some n)
      | Option.none => bedEntriesScan rest

/-- Lines 228-238: `bedrooms = beds = None`, then the guarded scan of
`structured.get('mapPrimaryLine')`; the surrounding `try/except: pass`
turns any error into the `(None, None)` initial state.  Returns the pair
`(bedrooms, beds)`. -/
def bedInfoScan (structured : PyVal) : Option Nat × Option Nat :=
  let r : Except String (Option Nat) :=
    (pyGet structured "mapPrimaryLine").bind fun v =>
    (pyIter (pyOr v (.list []))).bind fun entries =>
    bedEntriesScan entries
  match r with
  | .ok (some n) => (some n, some n)
  | .ok Option.none => (Option.none, Option.none)
  | .error _ => (Option.none, Option.none)

/-- `is_guest_favorite` (lines 240-244): explicit fields short-circuit,
otherwise the badge list is scanned (iterating a non-iterable `badges`
value raises). -/
def guestFavSignal (listing : Dict) (badges : PyVal) : Except String Bool :=
  if pyTruthy (pyOr (getKey listing "is_guest_favorite") (getKey listing "isGuestFavorite")) then
    .ok true
  else
    (pyIter badges).map fun bs =>
      bs.any fun b => strContainsSub (toUpperStr (pyStr b)) "GUEST_FAVORITE"

/-- `instant_book` (lines 245-249). -/
def instantSignal (listing : Dict) (badges : PyVal) : Except String Bool :=
  if pyTruthy (pyOr (pyOr (pyOr (getKey listing "ib") (getKey listing "instant_book"))
      (getKey listing "is_instant_bookable")) (getKey listing "isInstantBookable")) then
    .ok true
  else
    (pyIter badges).map fun bs =>
      bs.any fun b => strContainsSub (toUpperStr (pyStr b)) "INSTANT"

/-- Body extraction and keyword test for one display-line entry of
`detect_is_home` (lines 263-266). -/
def homeEntryCheck (entry : PyVal) : Bool :=
  let bodyVal := match entry with
    | .dict kvs => getKey kvs "body"
    | e => .str (pyStr e)
  match pyOr bodyVal (.str "") with
  | .str s => hasHomeWord s
  | _ => false

/-- The text-key loop of `detect_is_home` (lines 257-260). -/
def textHomeScan (item : Dict) : List String → Bool
  | [] => false
  | k :: rest =>
    (match pyOr (getKey item k) (.str "") with
     | .str s => hasHomeWord s
     | _ => false) || textHomeScan item rest

/-- The display-line loop of `detect_is_home` (lines 261-266): `sc.get`
raises when `structuredContent` is truthy but not a dict, and iterating a
truthy non-iterable line value raises. -/
def homeLineScan (sc : PyVal) : List String → Except String Bool
  | [] => .ok false
  | k :: rest =>
    (pyGet sc k).bind fun v =>
    (pyIter (pyOr v (.list []))).bind fun entries =>
    if entries.any homeEntryCheck then .ok true else homeLineScan sc rest

/-- `detect_is_home(item)` (lines 251-267); `badges` is the enclosing
loop's badge list, captured by the closure. -/
def detectIsHome (item : Dict) (badges : PyVal) : Except String Bool :=
  if pyTruthy (getKey item "entire_place") || pyTruthy (getKey item "is_entire_place") then
    .ok true
  else
    let rt := pyOr (pyOr (getKey item "roomType") (getKey item "type")) (.str "")
    if (match rt with
        | .str s => strContainsSub (toLowerStr s) "entire" || strContainsSub (toLowerStr s) "home"
        | _ => false) then
      .ok true
    else if textHomeScan item ["name", "title", "summary"] then
      .ok true
    else
      let sc := pyOr (getKey item "structuredContent") (.dict [])
      (homeLineScan sc ["primaryLine", "mapPrimaryLine", "secondaryLine", "mapSecondaryLine"]).bind
        fun found =>
          if found then .ok true
          else
            (pyIter badges).map fun bs =>
              bs.any fun b =>
                match b with
                | .str s => strContainsSub (toUpperStr s) "HOME" || strContainsSub (toUpperStr s) "ENTIRE"
                | _ => false

/-- The body of the normalization loop (lines 193-295) for one raw
listing: pure field selection with the three fallible derived-boolean
computations sequenced in the order the Python statements execute
(`is_guest_favorite`, `instant_book`, then `detect_is_home` inside the
dict literal). -/
def normalizeListing (currency : String) (listing : Dict) : Except String NormalizedListing :=
  let raw_id := pickKeys listing ["id", "room_id", "roomId", "listingId"]
  let listing_id : Option String :=
    match raw_id with
    | .none => Option.none
    | v =>
      match pyToInt v with
      | some n => some (toString n)
      | Option.none => some (pyStr v)
  let price := pickKeys listing ["price", "price_total", "priceValue"]
  let photos := pyOr (pickKeys listing ["photos", "images"]) (.list [])
  let ratingPair :=
    match pickKeys listing ["rating", "stars", "score"] with
    | .dict kvs => (getKey kvs "value", getKey kvs "reviewCount")
    | v => (v, PyVal.none)
  let coordPair :=
    match pyOr (pickKeys listing ["location", "coordinates"]) (.dict []) with
    | .dict kvs =>
      (pyOr (getKey kvs "lat") (getKey kvs "latitude"),
       pyOr (getKey kvs "lng") (getKey kvs "longitude"))
    | _ => (PyVal.none, PyVal.none)
  let badges := pyOr (pickKeys listing ["badges"]) (.list [])
  let structured := pyOr (getKey listing "structuredContent") (.dict [])
  let bedsPair := bedInfoScan structured
  (guestFavSignal listing badges).bind fun igf =>
  (instantSignal listing badges).bind fun instantB =>
  (detectIsHome listing badges).bind fun isHomeB =>
  .ok
    { id := listing_id
      url := pickKeys listing ["url", "listing_url"]
      name := pickKeys listing ["name", "title"]
      price := price
      currency := currency
      rating := ratingPair.1
      reviewsCount := pyOr (pyOr (pickKeys listing ["reviewsCount", "review_count"]) ratingPair.2) (.int 0)
      roomType := pickKeys listing ["roomType", "type"]
      guests := pickKeys listing ["guests", "person_capacity"]
      address := pickKeys listing ["address", "location_address"]
      lat := coordPair.1
      lng := coordPair.2
      hostId := pickKeys listing ["hostId", "host_id"]
      hostName := pickKeys listing ["hostName", "host_name"]
      hostIsSuperhost :=
        pyOr (pickKeys listing ["hostIsSuperhost", "host_is_superhost"])
          (match getKey listing "host" with
           | .dict kvs => getKey kvs "is_superhost"
           | _ => .bool false)
      photos := photos
      badges := badges
      isGuestFavorite := igf
      instantBook := instantB
      isHome := isHomeB
      bedrooms := bedsPair.1
      beds := bedsPair.2 }

/-! ## Helper lemmas -/

theorem exceptBindOk {ε α β : Type} (x : Except ε α) (f : α → Except ε β) (b : β) :
    x.bind f = .ok b ↔ ∃ a, x = .ok a ∧ f a = .ok b := by
  cases x <;> simp [Except.bind]

/-- The entries of `l` named `nm`. -/
def entriesNamed (l : List FilterEntry) (nm : String) : List FilterEntry :=
  l.filter (fun e => e.filterName == nm)

/-- The six map-search filter names. -/
def bboxNames : List String :=
  ["searchByMap", "neLat", "neLng", "swLat", "swLng", "zoomLevel"]

/-- The entries of `l` with a map-search name. -/
def mapEntriesOf (l : List FilterEntry) : List FilterEntry :=
  l.filter (fun e => bboxNames.contains e.filterName)

theorem filter_name_nil (q : String → Bool) (l : List FilterEntry)
    (h : ∀ e ∈ l, q e.filterName = false) :
    l.filter (fun e => q e.filterName) = [] := by
  induction l with
  | nil => rfl
  | cons e rest ih =>
    simp only [List.filter_cons, h e (List.mem_cons_self e rest)]
    exact ih fun x hx => h x (List.mem_cons_of_mem e hx)

theorem filter_name_all (q : String → Bool) (l : List FilterEntry)
    (h : ∀ e ∈ l, q e.filterName = true) :
    l.filter (fun e => q e.filterName) = l := by
  induction l with
  | nil => rfl
  | cons e rest ih =>
    simp only [List.filter_cons, h e (List.mem_cons_self e rest), if_true]
    rw [ih fun x hx => h x (List.mem_cons_of_mem e hx)]

theorem posIntFilter_names (nm : String) (v : Option String) (l : List FilterEntry)
    (h : posIntFilter nm v = .ok l) : ∀ e ∈ l, e.filterName = nm := by
  cases v with
  | none =>
    simp only [posIntFilter, Except.ok.injEq] at h
    subst h; simp
  | some s =>
    by_cases hs : s = ""
    · simp only [posIntFilter, hs, if_true, Except.ok.injEq] at h
      subst h; simp
    · cases hp : pyIntOfString s with
      | none => simp [posIntFilter, hs, hp] at h
      | some n =>
        by_cases hn : 0 < n
        · simp only [posIntFilter, hs, if_false, hp, hn, if_true, Except.ok.injEq] at h
          subst h; simp
        · simp only [posIntFilter, hs, if_false, hp, hn, Except.ok.injEq] at h
          subst h; simp

theorem dateParams_names (ci co : Option String) (l : List FilterEntry)
    (h : dateParams ci co = .ok l) :
    ∀ e ∈ l, e.filterName ∈ ["checkin", "checkout", "priceFilterNumNights"] := by
  unfold dateParams at h
  by_cases hc : (truthyS ci && truthyS co) = true
  · rw [if_pos hc] at h
    cases hco : parseDateOrd (co.getD "") with
    | none => rw [hco] at h; exact absurd h (by simp)
    | some oco =>
      rw [hco] at h
      cases hci : parseDateOrd (ci.getD "") with
      | none => rw [hci] at h; exact absurd h (by simp)
      | some oci =>
        rw [hci] at h
        injection h with h; subst h; simp
  · rw [if_neg hc] at h
    injection h with h; subst h; simp

theorem bboxParams_names (qs : Qs) (l : List FilterEntry)
    (h : bboxParams qs = .ok l) : ∀ e ∈ l, e.filterName ∈ bboxNames := by
  unfold bboxParams at h
  by_cases hb : hasBbox qs = true
  · rw [if_pos hb] at h
    cases hz : pyIntOfFloatString (zoomVal qs) with
    | none => rw [hz] at h; exact absurd h (by simp)
    | some z =>
      rw [hz] at h
      injection h with h; subst h
      simp [bboxNames]
  · rw [if_neg hb] at h
    injection h with h; subst h; simp

theorem locationParams_names (qs : Qs) :
    ∀ e ∈ locationParams qs, e.filterName ∈ ["placeId", "query"] := by
  unfold locationParams
  intro e he
  rcases List.mem_append.mp he with h | h <;> revert h <;> split <;> simp_all

theorem roomTypeParams_names (qs : Qs) :
    ∀ e ∈ roomTypeParams qs, e.filterName = "room_types" := by
  unfold roomTypeParams
  intro e he
  obtain ⟨rt, _, rfl⟩ := List.mem_map.mp he
  rfl

theorem amenityParams_names (qs : Qs) :
    ∀ e ∈ amenityParams qs, e.filterName = "amenities" := by
  unfold amenityParams
  intro e he
  revert he
  split
  · simp
  · intro he
    simp only [List.mem_singleton] at he
    subst he; rfl

theorem boolFlagParams_names (qs : Qs) :
    ∀ e ∈ boolFlagParams qs, e.filterName ∈ ["ib", "guest_favorite", "flexible_cancellation"] := by
  unfold boolFlagParams
  intro e he
  rcases List.mem_append.mp he with h | h
  · rcases List.mem_append.mp h with h2 | h2 <;> revert h2 <;> split <;> simp_all
  · revert h; split <;> simp_all

theorem filterOrderParams_names (qs : Qs) :
    ∀ e ∈ filterOrderParams qs, e.filterName = "selected_filter_order" := by
  unfold filterOrderParams
  intro e he
  obtain ⟨fo, _, rfl⟩ := List.mem_map.mp he
  rfl

/-- Decomposition of a successful `build_raw_params` run into its
sections. -/
theorem buildRawParams_shape (qs : Qs) (l : List FilterEntry)
    (h : buildRawParams qs = .ok l) :
    ∃ bbox dates pmin pmax ad ch inff mb mbr mba,
      bboxParams qs = .ok bbox ∧
      dateParams (checkInVal qs) (checkOutVal qs) = .ok dates ∧
      posIntFilter "price_min" (priceMinVal qs) = .ok pmin ∧
      posIntFilter "price_max" (priceMaxVal qs) = .ok pmax ∧
      posIntFilter "adults" (adultsVal qs) = .ok ad ∧
      posIntFilter "children" (childrenVal qs) = .ok ch ∧
      posIntFilter "infants" (infantsVal qs) = .ok inff ∧
      posIntFilter "min_beds" (minBedsVal qs) = .ok mb ∧
      posIntFilter "min_bedrooms" (minBedroomsVal qs) = .ok mbr ∧
      posIntFilter "min_bathrooms" (minBathroomsVal qs) = .ok mba ∧
      l = baseParams ++ bbox ++ locationParams qs ++ dates
            ++ pmin ++ pmax ++ ad ++ ch ++ inff ++ mb ++ mbr ++ mba
            ++ roomTypeParams qs ++ amenityParams qs ++ boolFlagParams qs
            ++ filterOrderParams qs := by
  unfold buildRawParams at h
  simp only [exceptBindOk, Except.ok.injEq] at h
  obtain ⟨bbox, h1, dates, h2, pmin, h3, pmax, h4, ad, h5, ch, h6, inff, h7, mb, h8,
    mbr, h9, mba, h10, hl⟩ := h
  exact ⟨bbox, dates, pmin, pmax, ad, ch, inff, mb, mbr, mba,
    h1, h2, h3, h4, h5, h6, h7, h8, h9, h10, hl.symm⟩

theorem filter_contains_nil (ns ms : List String) (l : List FilterEntry)
    (hl : ∀ e ∈ l, e.filterName ∈ ms) (hd : ∀ m ∈ ms, ns.contains m = false) :
    l.filter (fun e => ns.contains e.filterName) = [] :=
  filter_name_nil _ _ fun e he => hd _ (hl e he)

theorem filter_contains_nil_of_eq (ns : List String) (nm : String) (l : List FilterEntry)
    (hl : ∀ e ∈ l, e.filterName = nm) (hd : ns.contains nm = false) :
    l.filter (fun e => ns.contains e.filterName) = [] :=
  filter_name_nil _ _ fun e he => by rw [hl e he]; exact hd

theorem filter_beq_nil_of_eq (nm' nm : String) (l : List FilterEntry)
    (hl : ∀ e ∈ l, e.filterName = nm) (hd : (nm == nm') = false) :
    l.filter (fun e => e.filterName == nm') = [] :=
  filter_name_nil (fun x => x == nm') _ fun e he => by rw [hl e he]; exact hd

theorem filter_beq_nil_of_mem (nm' : String) (ms : List String) (l : List FilterEntry)
    (hl : ∀ e ∈ l, e.filterName ∈ ms) (hd : ∀ m ∈ ms, (m == nm') = false) :
    l.filter (fun e => e.filterName == nm') = [] :=
  filter_name_nil (fun x => x == nm') _ fun e he => hd _ (hl e he)

/-- What the bounding-box section contributes, as a standalone function of
the query string: nothing unless all four coordinates are truthy, else the
six map filters with the zoom truncated toward zero. -/
def expectedMapEntries (qs : Qs) : List FilterEntry :=
  if hasBbox qs then
    match pyIntOfFloatString (zoomVal qs) with
    | some z =>
      [⟨"searchByMap", ["true"]⟩,
       ⟨"neLat", [(neLatVal qs).getD ""]⟩,
       ⟨"neLng", [(neLngVal qs).getD ""]⟩,
       ⟨"swLat", [(swLatVal qs).getD ""]⟩,
       ⟨"swLng", [(swLngVal qs).getD ""]⟩,
       ⟨"zoomLevel", [toString z]⟩]
    | Option.none => []
  else []

theorem bboxParams_ok_eq (qs : Qs) (b : List FilterEntry)
    (h : bboxParams qs = .ok b) : b = expectedMapEntries qs := by
  unfold bboxParams at h
  unfold expectedMapEntries
  by_cases hb : hasBbox qs = true
  · rw [if_pos hb] at h
    rw [if_pos hb]
    cases hz : pyIntOfFloatString (zoomVal qs) with
    | none => rw [hz] at h; exact absurd h (by simp)
    | some z =>
      rw [hz] at h
      injection h with h
      exact h.symm
  · rw [if_neg hb] at h
    rw [if_neg hb]
    injection h with h
    exact h.symm

/-- C3 (amended): in every successful `build_raw_params` output, the
map-search entries (`searchByMap`, `neLat`, `neLng`, `swLat`, `swLng`,
`zoomLevel`) are exactly those of the bounding-box section: none when any
of the four coordinates is missing or empty, and all six — with
`zoomLevel` the zoom value truncated toward zero — when all four are
present.  (The claim said "floor"; `int(float(zoom))` truncates, see the
counterexample.) -/
theorem c3_bbox_all_or_nothing (qs : Qs) (l : List FilterEntry)
    (h : buildRawParams qs = .ok l) :
    mapEntriesOf l = expectedMapEntries qs := by
  obtain ⟨bbox, dates, pmin, pmax, ad, ch, inff, mb, mbr, mba,
    h1, h2, h3, h4, h5, h6, h7, h8, h9, h10, rfl⟩ := buildRawParams_shape qs l h
  unfold mapEntriesOf
  simp only [List.filter_append]
  rw [filter_name_nil _ baseParams (by decide),
    filter_contains_nil _ _ _ (locationParams_names qs) (by decide),
    filter_contains_nil _ _ _ (dateParams_names _ _ _ h2) (by decide),
    filter_contains_nil_of_eq _ _ _ (posIntFilter_names _ _ _ h3) (by decide),
    filter_contains_nil_of_eq _ _ _ (posIntFilter_names _ _ _ h4) (by decide),
    filter_contains_nil_of_eq _ _ _ (posIntFilter_names _ _ _ h5) (by decide),
    filter_contains_nil_of_eq _ _ _ (posIntFilter_names _ _ _ h6) (by decide),
    filter_contains_nil_of_eq _ _ _ (posIntFilter_names _ _ _ h7) (by decide),
    filter_contains_nil_of_eq _ _ _ (posIntFilter_names _ _ _ h8) (by decide),
    filter_contains_nil_of_eq _ _ _ (posIntFilter_names _ _ _ h9) (by decide),
    filter_contains_nil_of_eq _ _ _ (posIntFilter_names _ _ _ h10) (by decide),
    filter_contains_nil_of_eq _ _ _ (roomTypeParams_names qs) (by decide),
    filter_contains_nil_of_eq _ _ _ (amenityParams_names qs) (by decide),
    filter_contains_nil _ _ _ (boolFlagParams_names qs) (by decide),
    filter_contains_nil_of_eq _ _ _ (filterOrderParams_names qs) (by decide),
    filter_name_all _ bbox (fun e he =>
      List.elem_iff.mpr (bboxParams_names qs bbox h1 e he))]
  simp [bboxParams_ok_eq qs bbox h1]

theorem baseParams_names :
    ∀ e ∈ baseParams, e.filterName ∈ ["cdnCacheSafe", "channel", "datePickerType",
      "itemsPerGrid", "screenSize", "refinementPaths", "tabId", "version"] := by
  decide

theorem entriesNamed_flags (qs : Qs) (l : List FilterEntry)
    (h : buildRawParams qs = .ok l) (nm : String)
    (hm : nm ∈ ["ib", "guest_favorite", "flexible_cancellation"]) :
    entriesNamed l nm = entriesNamed (boolFlagParams qs) nm := by
  obtain ⟨bbox, dates, pmin, pmax, ad, ch, inff, mb, mbr, mba,
    h1, h2, h3, h4, h5, h6, h7, h8, h9, h10, rfl⟩ := buildRawParams_shape qs l h
  simp only [List.mem_cons, List.not_mem_nil, or_false] at hm
  unfold entriesNamed
  rcases hm with rfl | rfl | rfl <;>
  · simp only [List.filter_append]
    rw [filter_beq_nil_of_mem _ _ _ baseParams_names (by decide),
      filter_beq_nil_of_mem _ _ _ (bboxParams_names qs bbox h1) (by decide),
      filter_beq_nil_of_mem _ _ _ (locationParams_names qs) (by decide),
      filter_beq_nil_of_mem _ _ _ (dateParams_names _ _ _ h2) (by decide),
      filter_beq_nil_of_eq _ _ _ (posIntFilter_names _ _ _ h3) (by decide),
      filter_beq_nil_of_eq _ _ _ (posIntFilter_names _ _ _ h4) (by decide),
      filter_beq_nil_of_eq _ _ _ (posIntFilter_names _ _ _ h5) (by decide),
      filter_beq_nil_of_eq _ _ _ (posIntFilter_names _ _ _ h6) (by decide),
      filter_beq_nil_of_eq _ _ _ (posIntFilter_names _ _ _ h7) (by decide),
      filter_beq_nil_of_eq _ _ _ (posIntFilter_names _ _ _ h8) (by decide),
      filter_beq_nil_of_eq _ _ _ (posIntFilter_names _ _ _ h9) (by decide),
      filter_beq_nil_of_eq _ _ _ (posIntFilter_names _ _ _ h10) (by decide),
      filter_beq_nil_of_eq _ _ _ (roomTypeParams_names qs) (by decide),
      filter_beq_nil_of_eq _ _ _ (amenityParams_names qs) (by decide),
      filter_beq_nil_of_eq _ _ _ (filterOrderParams_names qs) (by decide)]
    simp

theorem boolFlagParams_filter_ib (qs : Qs) :
    entriesNamed (boolFlagParams qs) "ib"
      = (if toLowerStr (ibVal qs) = "true" then [⟨"ib", ["true"]⟩] else []) := by
  unfold entriesNamed boolFlagParams
  split_ifs <;> rfl

theorem boolFlagParams_filter_gf (qs : Qs) :
    entriesNamed (boolFlagParams qs) "guest_favorite"
      = (if toLowerStr (guestFavoriteVal qs) = "true" then [⟨"guest_favorite", ["true"]⟩] else []) := by
  unfold entriesNamed boolFlagParams
  split_ifs <;> rfl

theorem boolFlagParams_filter_fc (qs : Qs) :
    entriesNamed (boolFlagParams qs) "flexible_cancellation"
      = (if toLowerStr (freeCancellationVal qs) = "true" then [⟨"flexible_cancellation", ["true"]⟩] else []) := by
  unfold entriesNamed boolFlagParams
  split_ifs <;> rfl

/-- C8: for each boolean flag (instant-book `ib`, favorite-only
`guest_favorite`, flexible-cancellation `flexible_cancellation`), a
successful `build_raw_params` output contains no entry of that name when
the flag value is absent or does not lowercase to "true", and exactly the
single entry `⟨flag, ["true"]⟩` when it does. -/
theorem c8_bool_flags (qs : Qs) (l : List FilterEntry)
    (h : buildRawParams qs = .ok l) :
    entriesNamed l "ib" = (if toLowerStr (ibVal qs) = "true" then [⟨"ib", ["true"]⟩] else [])
    ∧ entriesNamed l "guest_favorite"
        = (if toLowerStr (guestFavoriteVal qs) = "true" then [⟨"guest_favorite", ["true"]⟩] else [])
    ∧ entriesNamed l "flexible_cancellation"
        = (if toLowerStr (freeCancellationVal qs) = "true" then [⟨"flexible_cancellation", ["true"]⟩] else []) := by
  refine ⟨?_, ?_, ?_⟩
  · rw [entriesNamed_flags qs l h "ib" (by decide)]
    exact boolFlagParams_filter_ib qs
  · rw [entriesNamed_flags qs l h "guest_favorite" (by decide)]
    exact boolFlagParams_filter_gf qs
  · rw [entriesNamed_flags qs l h "flexible_cancellation" (by decide)]
    exact boolFlagParams_filter_fc qs

theorem entriesNamed_amenRoom (qs : Qs) (l : List FilterEntry)
    (h : buildRawParams qs = .ok l) (nm : String)
    (hm : nm ∈ ["amenities", "room_types"]) :
    entriesNamed l nm = entriesNamed (roomTypeParams qs ++ amenityParams qs) nm := by
  obtain ⟨bbox, dates, pmin, pmax, ad, ch, inff, mb, mbr, mba,
    h1, h2, h3, h4, h5, h6, h7, h8, h9, h10, rfl⟩ := buildRawParams_shape qs l h
  simp only [List.mem_cons, List.not_mem_nil, or_false] at hm
  unfold entriesNamed
  rcases hm with rfl | rfl <;>
  · simp only [List.filter_append]
    rw [filter_beq_nil_of_mem _ _ _ baseParams_names (by decide),
      filter_beq_nil_of_mem _ _ _ (bboxParams_names qs bbox h1) (by decide),
      filter_beq_nil_of_mem _ _ _ (locationParams_names qs) (by decide),
      filter_beq_nil_of_mem _ _ _ (dateParams_names _ _ _ h2) (by decide),
      filter_beq_nil_of_eq _ _ _ (posIntFilter_names _ _ _ h3) (by decide),
      filter_beq_nil_of_eq _ _ _ (posIntFilter_names _ _ _ h4) (by decide),
      filter_beq_nil_of_eq _ _ _ (posIntFilter_names _ _ _ h5) (by decide),
      filter_beq_nil_of_eq _ _ _ (posIntFilter_names _ _ _ h6) (by decide),
      filter_beq_nil_of_eq _ _ _ (posIntFilter_names _ _ _ h7) (by decide),
      filter_beq_nil_of_eq _ _ _ (posIntFilter_names _ _ _ h8) (by decide),
      filter_beq_nil_of_eq _ _ _ (posIntFilter_names _ _ _ h9) (by decide),
      filter_beq_nil_of_eq _ _ _ (posIntFilter_names _ _ _ h10) (by decide),
      filter_beq_nil_of_mem _ _ _ (boolFlagParams_names qs) (by decide),
      filter_beq_nil_of_eq _ _ _ (filterOrderParams_names qs) (by decide)]
    simp

/-- C10: in a successful `build_raw_params` output the amenity selection
appears as at most one multi-valued `amenities` entry (none when no
amenity was selected), while room types appear as one single-valued
`room_types` entry per selected value, in selection order. -/
theorem c10_amenities_room_types (qs : Qs) (l : List FilterEntry)
    (h : buildRawParams qs = .ok l) :
    entriesNamed l "amenities"
      = (match qsGet qs "amenities[]" with
         | [] => []
         | a => [⟨"amenities", a⟩])
    ∧ entriesNamed l "room_types"
      = (qsGet qs "room_types[]").map (fun rt => ⟨"room_types", [rt]⟩) := by
  constructor
  · rw [entriesNamed_amenRoom qs l h "amenities" (by decide)]
    unfold entriesNamed
    rw [List.filter_append,
      filter_beq_nil_of_eq _ _ _ (roomTypeParams_names qs) (by decide),
      filter_name_all (fun x => x == "amenities") _
        (fun e he => by rw [amenityParams_names qs e he]; rfl)]
    simp [amenityParams]
  · rw [entriesNamed_amenRoom qs l h "room_types" (by decide)]
    unfold entriesNamed
    rw [List.filter_append,
      filter_beq_nil_of_eq _ _ _ (amenityParams_names qs) (by decide),
      filter_name_all (fun x => x == "room_types") _
        (fun e he => by rw [roomTypeParams_names qs e he]; rfl)]
    simp [roomTypeParams]

/-- C2 (amended): a malformed individual filter value is NOT skipped —
`build_raw_params` raises.  Representative general statement: whenever the
bounding box is incomplete and the date pair is not both present (so no
earlier section raises first), a present, non-empty `price_min` value that
does not parse as an integer makes the whole build raise `ValueError`
instead of returning the remaining filters. -/
theorem c2_malformed_price_raises (qs : Qs) (v : String)
    (hb : hasBbox qs = false)
    (hd : (truthyS (checkInVal qs) && truthyS (checkOutVal qs)) = false)
    (hp : priceMinVal qs = some v) (hv : ¬(v = ""))
    (hi : pyIntOfString v = Option.none) :
    buildRawParams qs = .error ("invalid literal for int with base 10: " ++ v) := by
  have h1 : bboxParams qs = .ok [] := by
    unfold bboxParams
    rw [hb]
    rfl
  have h2 : dateParams (checkInVal qs) (checkOutVal qs) = .ok [] := by
    unfold dateParams
    rw [hd]
    rfl
  have h3 : posIntFilter "price_min" (priceMinVal qs)
      = .error ("invalid literal for int with base 10: " ++ v) := by
    rw [hp]
    simp [posIntFilter, hv, hi]
  unfold buildRawParams
  rw [h1, h2, h3]
  rfl

/-- Query string used to exhibit C2's failure: a malformed `price_min`
next to a perfectly well-formed `adults` filter. -/
def c2qs : Qs := [("price_min", ["abc"]), ("adults", ["2"])]

/-- C2 counterexample: with `price_min=abc` and `adults=2` the claim
expects the price filter to be skipped and the adults filter returned;
instead `build_raw_params` raises, so not even the well-formed remainder
is produced. -/
theorem c2_counterexample :
    buildRawParams c2qs = .error "invalid literal for int with base 10: abc" := rfl

/-- C2 witness: the amended theorem applied at `c2qs`. -/
theorem c2_witness :
    hasBbox c2qs = false
    ∧ (truthyS (checkInVal c2qs) && truthyS (checkOutVal c2qs)) = false
    ∧ priceMinVal c2qs = some "abc"
    ∧ ¬("abc" = "")
    ∧ pyIntOfString "abc" = Option.none
    ∧ buildRawParams c2qs = .error ("invalid literal for int with base 10: " ++ "abc") :=
  ⟨rfl, rfl, rfl, by decide, rfl,
    c2_malformed_price_raises c2qs "abc" rfl rfl rfl (by decide) rfl⟩

/-- Query string with a complete bounding box and a negative fractional
zoom, separating truncation from floor. -/
def c3qsCx : Qs :=
  [("ne_lat", ["1"]), ("ne_lng", ["2"]), ("sw_lat", ["3"]), ("sw_lng", ["4"]),
   ("zoom", ["-2.5"])]

/-- C3 counterexample: with all four coordinates present and
`zoom=-2.5`, the emitted `zoomLevel` is "-2" (truncation toward zero by
`int(float(...))`), while the floor the claim requires is -3. -/
theorem c3_counterexample :
    (buildRawParams c3qsCx).map (fun l => entriesNamed l "zoomLevel")
      = .ok [⟨"zoomLevel", ["-2"]⟩]
    ∧ zoomLevelFloorSpec "-2.5" = some (-3) := ⟨rfl, rfl⟩

/-- Complete-bounding-box witness input (zoom 5.6 → zoomLevel "5"). -/
def c3qsW : Qs :=
  [("ne_lat", ["41.9"]), ("ne_lng", ["-87.6"]), ("sw_lat", ["41.8"]),
   ("sw_lng", ["-87.7"]), ("zoom_level", ["5.6"])]

/-- Output of `build_raw_params` at `c3qsW`. -/
def c3outW : List FilterEntry :=
  baseParams ++
    [⟨"searchByMap", ["true"]⟩, ⟨"neLat", ["41.9"]⟩, ⟨"neLng", ["-87.6"]⟩,
     ⟨"swLat", ["41.8"]⟩, ⟨"swLng", ["-87.7"]⟩, ⟨"zoomLevel", ["5"]⟩]

/-- Incomplete-bounding-box witness input (only one coordinate). -/
def c3qsW2 : Qs := [("ne_lat", ["41.9"]), ("query", ["Chicago"])]

/-- Output of `build_raw_params` at `c3qsW2`. -/
def c3outW2 : List FilterEntry := baseParams ++ [⟨"query", ["Chicago"]⟩]

/-- C3 witness: the amended theorem applied on both sides of the
all-or-nothing split. -/
theorem c3_witness :
    buildRawParams c3qsW = .ok c3outW
    ∧ mapEntriesOf c3outW = expectedMapEntries c3qsW
    ∧ buildRawParams c3qsW2 = .ok c3outW2
    ∧ mapEntriesOf c3outW2 = expectedMapEntries c3qsW2 :=
  ⟨rfl, c3_bbox_all_or_nothing c3qsW c3outW rfl,
   rfl, c3_bbox_all_or_nothing c3qsW2 c3outW2 rfl⟩

/-- Witness query string for C8: instant-book set, favorite-only set in
upper case, flexible-cancellation absent. -/
def c8qsW : Qs := [("ib", ["true"]), ("guest_favorite", ["TRUE"])]

/-- Output of `build_raw_params` at `c8qsW`. -/
def c8outW : List FilterEntry :=
  baseParams ++ [⟨"ib", ["true"]⟩, ⟨"guest_favorite", ["true"]⟩]

/-- C8 witness: the theorem applied at `c8qsW` — exactly one entry for
each flag set true, none for the absent one. -/
theorem c8_witness :
    buildRawParams c8qsW = .ok c8outW
    ∧ entriesNamed c8outW "ib" = [⟨"ib", ["true"]⟩]
    ∧ entriesNamed c8outW "guest_favorite" = [⟨"guest_favorite", ["true"]⟩]
    ∧ entriesNamed c8outW "flexible_cancellation" = [] :=
  ⟨rfl, (c8_bool_flags c8qsW c8outW rfl).1, (c8_bool_flags c8qsW c8outW rfl).2.1,
   (c8_bool_flags c8qsW c8outW rfl).2.2⟩

/-- Witness query string for C10: two amenities and two room types. -/
def c10qsW : Qs :=
  [("amenities[]", ["4", "33"]), ("room_types[]", ["Entire home/apt", "Private room"])]

/-- Output of `build_raw_params` at `c10qsW`. -/
def c10outW : List FilterEntry :=
  baseParams ++
    [⟨"room_types", ["Entire home/apt"]⟩, ⟨"room_types", ["Private room"]⟩,
     ⟨"amenities", ["4", "33"]⟩]

/-- C10 witness: the theorem applied at `c10qsW`. -/
theorem c10_witness :
    buildRawParams c10qsW = .ok c10outW
    ∧ entriesNamed c10outW "amenities" = [⟨"amenities", ["4", "33"]⟩]
    ∧ entriesNamed c10outW "room_types"
        = [⟨"room_types", ["Entire home/apt"]⟩, ⟨"room_types", ["Private room"]⟩] :=
  ⟨rfl, (c10_amenities_room_types c10qsW c10outW rfl).1,
   (c10_amenities_room_types c10qsW c10outW rfl).2⟩

theorem paginate_cons_stop {α : Type} (p : Page α) (rest : List (Page α))
    (h : p.listings.isEmpty = true ∨ p.nextPageCursor = "") :
    paginate (p :: rest) = (p.listings, 1) := by
  show (if (p.listings.isEmpty || decide (p.nextPageCursor = "")) = true then (p.listings, 1)
        else (p.listings ++ (paginate rest).1, (paginate rest).2 + 1)) = (p.listings, 1)
  rw [if_pos]
  rcases h with h | h <;> simp [h]

theorem paginate_cons_continue {α : Type} (p : Page α) (rest : List (Page α))
    (hne : p.listings.isEmpty = false) (hcur : ¬(p.nextPageCursor = "")) :
    paginate (p :: rest) = (p.listings ++ (paginate rest).1, (paginate rest).2 + 1) := by
  show (if (p.listings.isEmpty || decide (p.nextPageCursor = "")) = true then (p.listings, 1)
        else (p.listings ++ (paginate rest).1, (paginate rest).2 + 1))
      = (p.listings ++ (paginate rest).1, (paginate rest).2 + 1)
  rw [if_neg]
  simp [hne, hcur]

/-- C4: run against a scripted sequence of pages in which every page
before the last has listings and a non-empty next-page cursor, and the
last page has no listings or an empty cursor, the pagination loop of
`search_from_url` terminates within the script, returns exactly the
concatenation of all pages' listings in order, and performs exactly one
fetch per page (`script.length` fetches). -/
theorem c4_pagination_exact (α : Type) (script : List (Page α)) (h1 : script ≠ [])
    (h2 : ∀ p ∈ script.dropLast, p.listings.isEmpty = false ∧ ¬(p.nextPageCursor = ""))
    (h3 : (script.getLast h1).listings.isEmpty = true ∨ (script.getLast h1).nextPageCursor = "") :
    paginate script = ((script.map Page.listings).flatten, script.length) := by
  induction script with
  | nil => exact absurd rfl h1
  | cons p rest ih =>
    cases rest with
    | nil =>
      rw [paginate_cons_stop p [] h3]
      simp
    | cons q rest' =>
      have hp : p ∈ ((p :: q :: rest').dropLast) := by
        rw [List.dropLast_cons₂]
        exact List.mem_cons_self _ _
      obtain ⟨hne, hcur⟩ := h2 p hp
      have h2' : ∀ x ∈ (q :: rest').dropLast, x.listings.isEmpty = false ∧ ¬(x.nextPageCursor = "") := by
        intro x hx
        apply h2
        rw [List.dropLast_cons₂]
        exact List.mem_cons_of_mem _ hx
      have h3' : ((q :: rest').getLast (by simp)).listings.isEmpty = true
          ∨ ((q :: rest').getLast (by simp)).nextPageCursor = "" := by
        rwa [List.getLast_cons (by simp)] at h3
      rw [paginate_cons_continue p (q :: rest') hne hcur,
        ih (by simp) h2' h3']
      simp

/-- The scripted three-page run of the claim: 50, 50 and 10 listings, the
first two with non-empty cursors, the third with an empty cursor. -/
def c4script : List (Page Nat) :=
  [⟨List.range 50, "cursorA"⟩, ⟨List.range 50, "cursorB"⟩, ⟨List.range 10, ""⟩]

/-- C4 witness: the theorem applied to the scripted pages — 110 listings
out, exactly 3 fetches. -/
theorem c4_witness :
    paginate c4script = ((c4script.map Page.listings).flatten, 3)
    ∧ ((c4script.map Page.listings).flatten).length = 110 :=
  ⟨c4_pagination_exact Nat c4script (List.cons_ne_nil _ _) (by decide) (by decide), by decide⟩

/-- A 200 response whose body is exactly the request-level failure shape:
an `errors` array and no data. -/
def c5resp : HttpResp :=
  ⟨200, "", .dict [("errors", .list [.dict [("message", .str "rate limited")]])]⟩

/-- C5 counterexample: the body carries a request-level `errors` array,
yet `search_page` returns it as a successful page payload instead of
surfacing an error — nothing in `search_page` or the `search_from_url`
loop inspects `errors`. -/
theorem c5_counterexample :
    hasErrorsArray c5resp.jsonBody = true ∧ search_page c5resp = .ok c5resp.jsonBody :=
  ⟨rfl, rfl⟩

/-- C5 (amended): the only failure `search_page` surfaces is a non-200
HTTP status; every 200 response — including one whose body is an `errors`
array — is returned as a normal page payload. -/
theorem c5_only_status_surfaced (resp : HttpResp) :
    (resp.status = 200 → search_page resp = .ok resp.jsonBody)
    ∧ (resp.status ≠ 200 →
        search_page resp = .error ("HTTP " ++ toString resp.status ++ ": " ++ resp.text.take 300)) := by
  constructor
  · intro h
    simp [search_page, h]
  · intro h
    simp [search_page, h]

/-- A failing transport response. -/
def c5resp2 : HttpResp := ⟨503, "Service Unavailable", .none⟩

/-- C5 witness: the amended theorem applied to a 200-with-errors response
and to a 503 response. -/
theorem c5_witness :
    search_page c5resp = .ok c5resp.jsonBody
    ∧ search_page c5resp2 = .error ("HTTP " ++ toString c5resp2.status ++ ": " ++ c5resp2.text.take 300) :=
  ⟨(c5_only_status_surfaced c5resp).1 rfl, (c5_only_status_surfaced c5resp2).2 (by decide)⟩

/-- Does the environment yield a captured token at all? -/
def envFindsToken (env : ScanEnv) : Bool :=
  match env.page with
  | Option.none => false
  | some outs => hasFoundAsset outs

theorem scanAssets_default (outs : List AssetOutcome) (h : hasFoundAsset outs = false) :
    scanAssets outs = DEFAULT_HASH := by
  induction outs with
  | nil => rfl
  | cons a rest ih =>
    cases a with
    | found t => exact absurd h (by simp [hasFoundAsset])
    | fetchError => exact ih (by simpa [hasFoundAsset] using h)
    | non200 => exact ih (by simpa [hasFoundAsset] using h)
    | noMatch => exact ih (by simpa [hasFoundAsset] using h)

theorem runOpHashCalls_cached (rest : List ScanEnv) (h : String) :
    runOpHashCalls rest (some h) = (rest.map fun _ => h, some h) := by
  induction rest with
  | nil => rfl
  | cons e rs ih => simp [runOpHashCalls, get_op_hash, ih]

/-- C7: the signature resolver never raises — when the page fetch fails or
no scanned asset captures a token it returns the hardcoded
`DEFAULT_HASH` — and the first resolved value is cached process-wide:
every later `get_op_hash` call in the run returns the first call's token,
whatever its own network environment would have produced. -/
theorem c7_resolver_default_and_cache (env : ScanEnv) (envs : List ScanEnv) :
    (envFindsToken env = false → fetch_live_hash env = DEFAULT_HASH)
    ∧ runOpHashCalls (env :: envs) Option.none
        = ((env :: envs).map fun _ => fetch_live_hash env, some (fetch_live_hash env)) := by
  constructor
  · intro h
    unfold fetch_live_hash
    cases hp : env.page with
    | none => rfl
    | some outs =>
      apply scanAssets_default
      unfold envFindsToken at h
      rw [hp] at h
      exact h
  · simp [runOpHashCalls, get_op_hash, runOpHashCalls_cached]

/-- A run in which no asset matches. -/
def c7env : ScanEnv := ⟨some [.fetchError, .non200, .noMatch]⟩

/-- A later environment that WOULD produce a different token, were it
consulted. -/
def c7env2 : ScanEnv := ⟨some [.found "aaaa"]⟩

/-- C7 witness: the theorem applied to a no-match first call followed by
two calls whose environment would find a different token — all three
calls return the default. -/
theorem c7_witness :
    fetch_live_hash c7env = DEFAULT_HASH
    ∧ runOpHashCalls [c7env, c7env2, c7env2] Option.none
        = ([DEFAULT_HASH, DEFAULT_HASH, DEFAULT_HASH], some DEFAULT_HASH) :=
  ⟨(c7_resolver_default_and_cache c7env [c7env2, c7env2]).1 rfl,
   (c7_resolver_default_and_cache c7env [c7env2, c7env2]).2⟩

/-! ## Claims about the post-filter stage and the normalizer -/

/-- C1 (amended): a listing with a null `beds` field and no bed
information in any other known field is never dropped by the min-beds
post-filter — on the URL-forwarding path the stage is skipped entirely,
and on the fallback path `meets_min_beds` falls through to `return True`
and keeps the listing. -/
theorem c1_null_beds_never_dropped (params : Dict) (b : Bool) (listing : Dict)
    (h1 : getKey listing "beds" = PyVal.none)
    (h2 : getKey listing "min_beds" = PyVal.none)
    (h3 : getKey listing "bedCount" = PyVal.none)
    (h4 : getKey listing "structuredContent" = PyVal.none) :
    minBedsStage params b [listing] = .ok [listing] := by
  have hm : ∀ want, meets_min_beds want listing = .ok true := by
    intro want
    unfold meets_min_beds
    rw [show fieldsBedCheck want listing ["beds", "min_beds", "bedCount"] = Option.none by
      simp [fieldsBedCheck, h1, h2, h3]]
    rw [h4]
    rfl
  simp only [minBedsStage]
  split
  · simp [exceptFilter, hm, Except.bind]
  · rfl

/-- Post-filter parameters requesting at least two beds. -/
def c1params : Dict := [("min_beds", .int 2)]

/-- A listing whose `beds` field is null and which carries no other bed
information. -/
def c1listing : Dict := [("beds", PyVal.none)]

/-- C1 counterexample: with a min-beds criterion of 2, the null-beds
listing is kept on the URL path (as the claim says) AND on the fallback
path (where the claim says it is dropped — dropping would mean
`.ok []`). -/
theorem c1_counterexample :
    minBedsStage c1params true [c1listing] = .ok [c1listing]
    ∧ minBedsStage c1params false [c1listing] = .ok [c1listing] := ⟨rfl, rfl⟩

/-- Post-filter parameters requesting at least three beds. -/
def c1paramsW : Dict := [("min_beds", .int 3)]

/-- Another bed-information-free listing. -/
def c1listingW : Dict := [("beds", PyVal.none), ("name", .str "Cabin")]

/-- C1 witness: the amended theorem applied on the fallback path. -/
theorem c1_witness :
    getKey c1listingW "beds" = PyVal.none
    ∧ getKey c1listingW "min_beds" = PyVal.none
    ∧ getKey c1listingW "bedCount" = PyVal.none
    ∧ getKey c1listingW "structuredContent" = PyVal.none
    ∧ minBedsStage c1paramsW false [c1listingW] = .ok [c1listingW] :=
  ⟨rfl, rfl, rfl, rfl, c1_null_beds_never_dropped c1paramsW false c1listingW rfl rfl rfl rfl⟩

/-- Every listing key the normalizer reads. -/
def c6Keys : List String :=
  ["id",
   "room_id",
   "roomId",
   "listingId",
   "price",
   "price_total",
   "priceValue",
   "photos",
   "images",
   "rating",
   "stars",
   "score",
   "location",
   "coordinates",
   "badges",
   "structuredContent",
   "is_guest_favorite",
   "isGuestFavorite",
   "ib",
   "instant_book",
   "is_instant_bookable",
   "isInstantBookable",
   "entire_place",
   "is_entire_place",
   "roomType",
   "type",
   "name",
   "title",
   "summary",
   "url",
   "listing_url",
   "reviewsCount",
   "review_count",
   "guests",
   "person_capacity",
   "address",
   "location_address",
   "hostId",
   "host_id",
   "hostName",
   "host_name",
   "hostIsSuperhost",
   "host_is_superhost",
   "host"]

/-- C6: the normalizer is total on records lacking every known source
key: no error is raised and every output field takes its documented
default — review count 0, photo and badge lists empty, the derived
booleans false, and the nullable fields null. -/
theorem c6_normalizer_defaults (cur : String) (listing : Dict)
    (h : ∀ k ∈ c6Keys, getKey listing k = PyVal.none) :
    normalizeListing cur listing = .ok
      { id := Option.none, url := .none, name := .none, price := .none, currency := cur,
        rating := .none, reviewsCount := .int 0, roomType := .none, guests := .none,
        address := .none, lat := .none, lng := .none, hostId := .none, hostName := .none,
        hostIsSuperhost := .bool false, photos := .list [], badges := .list [],
        isGuestFavorite := false, instantBook := false, isHome := false,
        bedrooms := Option.none, beds := Option.none } := by
  have hk0 := h "id" (by decide)
  have hk1 := h "room_id" (by decide)
  have hk2 := h "roomId" (by decide)
  have hk3 := h "listingId" (by decide)
  have hk4 := h "price" (by decide)
  have hk5 := h "price_total" (by decide)
  have hk6 := h "priceValue" (by decide)
  have hk7 := h "photos" (by decide)
  have hk8 := h "images" (by decide)
  have hk9 := h "rating" (by decide)
  have hk10 := h "stars" (by decide)
  have hk11 := h "score" (by decide)
  have hk12 := h "location" (by decide)
  have hk13 := h "coordinates" (by decide)
  have hk14 := h "badges" (by decide)
  have hk15 := h "structuredContent" (by decide)
  have hk16 := h "is_guest_favorite" (by decide)
  have hk17 := h "isGuestFavorite" (by decide)
  have hk18 := h "ib" (by decide)
  have hk19 := h "instant_book" (by decide)
  have hk20 := h "is_instant_bookable" (by decide)
  have hk21 := h "isInstantBookable" (by decide)
  have hk22 := h "entire_place" (by decide)
  have hk23 := h "is_entire_place" (by decide)
  have hk24 := h "roomType" (by decide)
  have hk25 := h "type" (by decide)
  have hk26 := h "name" (by decide)
  have hk27 := h "title" (by decide)
  have hk28 := h "summary" (by decide)
  have hk29 := h "url" (by decide)
  have hk30 := h "listing_url" (by decide)
  have hk31 := h "reviewsCount" (by decide)
  have hk32 := h "review_count" (by decide)
  have hk33 := h "guests" (by decide)
  have hk34 := h "person_capacity" (by decide)
  have hk35 := h "address" (by decide)
  have hk36 := h "location_address" (by decide)
  have hk37 := h "hostId" (by decide)
  have hk38 := h "host_id" (by decide)
  have hk39 := h "hostName" (by decide)
  have hk40 := h "host_name" (by decide)
  have hk41 := h "hostIsSuperhost" (by decide)
  have hk42 := h "host_is_superhost" (by decide)
  have hk43 := h "host" (by decide)
  simp only [normalizeListing, pickKeys, guestFavSignal, instantSignal, detectIsHome,
    textHomeScan, hk0, hk1, hk2, hk3, hk4, hk5, hk6, hk7, hk8, hk9, hk10, hk11, hk12, hk13, hk14, hk15, hk16, hk17, hk18, hk19, hk20, hk21, hk22, hk23, hk24, hk25, hk26, hk27, hk28, hk29, hk30, hk31, hk32, hk33, hk34, hk35, hk36, hk37, hk38, hk39, hk40, hk41, hk42, hk43]
  rfl

/-- C6 witness: the theorem applied to the empty record. -/
theorem c6_witness :
    normalizeListing "USD" [] = .ok
      { id := Option.none, url := .none, name := .none, price := .none, currency := "USD",
        rating := .none, reviewsCount := .int 0, roomType := .none, guests := .none,
        address := .none, lat := .none, lng := .none, hostId := .none, hostName := .none,
        hostIsSuperhost := .bool false, photos := .list [], badges := .list [],
        isGuestFavorite := false, instantBook := false, isHome := false,
        bedrooms := Option.none, beds := Option.none } :=
  c6_normalizer_defaults "USD" [] (fun _ _ => rfl)

theorem bedInfoScan_fst_eq_snd (structured : PyVal) :
    (bedInfoScan structured).1 = (bedInfoScan structured).2 := by
  cases hr : ((pyGet structured "mapPrimaryLine").bind fun v =>
      (pyIter (pyOr v (PyVal.list []))).bind fun entries => bedEntriesScan entries) with
  | error e => simp [bedInfoScan, hr]
  | ok o => cases o <;> simp [bedInfoScan, hr]

/-- C9 (amended): in every `NormalizedListing` the normalizer produces,
`bedrooms` equals `beds` — the normalizer never derives an independent
bedroom count — and both equal the result of the BEDINFO scan: the first
integer occurring in the body of the first BEDINFO-typed `mapPrimaryLine`
entry whose body contains an integer (a BEDINFO entry with no integer in
its body is skipped, not terminal; see the counterexample). -/
theorem c9_bedrooms_eq_beds (cur : String) (listing : Dict) (out : NormalizedListing)
    (h : normalizeListing cur listing = .ok out) :
    out.bedrooms = out.beds
    ∧ out.beds = (bedInfoScan (pyOr (getKey listing "structuredContent") (.dict []))).2 := by
  simp only [normalizeListing, exceptBindOk, Except.ok.injEq] at h
  obtain ⟨igf, hg, instantB, hi, isHomeB, hh, hout⟩ := h
  rw [← hout]
  exact ⟨bedInfoScan_fst_eq_snd _, rfl⟩

/-- Listing whose first BEDINFO entry has no integer in its body while the
second says "2 beds". -/
def c9lstCx : Dict :=
  [("structuredContent", .dict [("mapPrimaryLine", .list
    [.dict [("type", .str "BEDINFO"), ("body", .str "Studio")],
     .dict [("type", .str "BEDINFO"), ("body", .str "2 beds")]])])]

/-- Follows the claim's words, for comparison with the source behaviour:
"the single leading integer extracted from the first structured
display-line entry whose type marker is BEDINFO" — the first integer of
the body of the FIRST BEDINFO-typed entry, whether or not that body
contains one. -/
def firstBedinfoNatSpec (listing : Dict) : Option Nat :=
  match pyOr (getKey listing "structuredContent") (.dict []) with
  | .dict kvs =>
    match getKey kvs "mapPrimaryLine" with
    | .list entries =>
      match entries.find? (fun e =>
        match e with
        | .dict kv2 => (match getKey kv2 "type" with | .str s => s == "BEDINFO" | _ => false)
        | _ => false) with
      | some (.dict kv2) =>
        (match pyOr (getKey kv2 "body") (.str "") with
         | .str s => firstNatRun s.toList
         | _ => Option.none)
      | _ => Option.none
    | _ => Option.none
  | _ => Option.none

/-- C9 counterexample: the normalizer reports 2 beds (taken from the
SECOND BEDINFO entry), whereas the claim's extraction from the first
BEDINFO entry yields nothing — so the output is neither null nor the
claimed value. -/
theorem c9_counterexample :
    (normalizeListing "USD" c9lstCx).map (fun o => (o.bedrooms, o.beds)) = .ok (some 2, some 2)
    ∧ firstBedinfoNatSpec c9lstCx = Option.none := ⟨rfl, rfl⟩

/-- A listing with one BEDINFO entry saying "3 beds · 2 baths". -/
def c9lstW : Dict :=
  [("structuredContent", .dict [("mapPrimaryLine", .list
    [.dict [("type", .str "BEDINFO"), ("body", .str "3 beds · 2 baths")]])])]

/-- The normalizer output at `c9lstW`. -/
def c9outW : NormalizedListing :=
  { id := Option.none, url := .none, name := .none, price := .none, currency := "USD",
    rating := .none, reviewsCount := .int 0, roomType := .none, guests := .none,
    address := .none, lat := .none, lng := .none, hostId := .none, hostName := .none,
    hostIsSuperhost := .bool false, photos := .list [], badges := .list [],
    isGuestFavorite := false, instantBook := false, isHome := false,
    bedrooms := some 3, beds := some 3 }

/-- C9 witness: the theorem applied at `c9lstW`. -/
theorem c9_witness :
    normalizeListing "USD" c9lstW = .ok c9outW
    ∧ c9outW.bedrooms = c9outW.beds
    ∧ c9outW.beds = (bedInfoScan (pyOr (getKey c9lstW "structuredContent") (.dict []))).2 :=
  ⟨rfl, (c9_bedrooms_eq_beds "USD" c9lstW c9outW rfl).1,
   (c9_bedrooms_eq_beds "USD" c9lstW c9outW rfl).2⟩
